import Mathlib

/-!
Verification development for the WrenAI demo dashboard module
(wren-ai-service/demo/utils.py).

The module drives an external natural-language-to-SQL service over HTTP:
it submits jobs, polls a status endpoint until a terminal status is seen,
executes SQL through one of two query backends, and fills declarative
Vega-Lite chart specifications with tabular data.

The embedding below models the JSON payloads exchanged with the backends
as an inductive `Json` type (objects as association lists, as produced by
the json library in insertion order), and each relevant source function as
a pure Lean function.  Network effects are made explicit: functions that
issue HTTP requests return the request they would send (and, where the
claims need it, the full trace of requests issued), and the backend is a
parameter mapping requests to responses.  Failures that the Python code
raises (assert statements, pandas key lookups, malformed shapes) are
returned through `Except` with a dedicated error type.
-/

/-- JSON values, with objects kept as association lists in insertion
order, mirroring Python dict literals. -/
inductive Json where
  | null : Json
  | bool (b : Bool) : Json
  | num (n : Int) : Json
  | str (s : String) : Json
  | arr (elems : List Json) : Json
  | obj (entries : List (String × Json)) : Json

mutual

/-- Decidable equality on JSON values (the derive handler does not support
this nested inductive, so it is spelled out). -/
def Json.decEq : (a b : Json) → Decidable (a = b)
  | .null, .null => .isTrue rfl
  | .bool x, .bool y =>
    if h : x = y then .isTrue (by rw [h]) else .isFalse (fun e => h (by cases e; rfl))
  | .num x, .num y =>
    if h : x = y then .isTrue (by rw [h]) else .isFalse (fun e => h (by cases e; rfl))
  | .str x, .str y =>
    if h : x = y then .isTrue (by rw [h]) else .isFalse (fun e => h (by cases e; rfl))
  | .arr x, .arr y =>
    match Json.decEqList x y with
    | .isTrue h => .isTrue (by rw [h])
    | .isFalse h => .isFalse (fun e => h (by cases e; rfl))
  | .obj x, .obj y =>
    match Json.decEqEntries x y with
    | .isTrue h => .isTrue (by rw [h])
    | .isFalse h => .isFalse (fun e => h (by cases e; rfl))
  | .null, .bool _ => .isFalse (fun h => Json.noConfusion h)
  | .null, .num _ => .isFalse (fun h => Json.noConfusion h)
  | .null, .str _ => .isFalse (fun h => Json.noConfusion h)
  | .null, .arr _ => .isFalse (fun h => Json.noConfusion h)
  | .null, .obj _ => .isFalse (fun h => Json.noConfusion h)
  | .bool _, .null => .isFalse (fun h => Json.noConfusion h)
  | .bool _, .num _ => .isFalse (fun h => Json.noConfusion h)
  | .bool _, .str _ => .isFalse (fun h => Json.noConfusion h)
  | .bool _, .arr _ => .isFalse (fun h => Json.noConfusion h)
  | .bool _, .obj _ => .isFalse (fun h => Json.noConfusion h)
  | .num _, .null => .isFalse (fun h => Json.noConfusion h)
  | .num _, .bool _ => .isFalse (fun h => Json.noConfusion h)
  | .num _, .str _ => .isFalse (fun h => Json.noConfusion h)
  | .num _, .arr _ => .isFalse (fun h => Json.noConfusion h)
  | .num _, .obj _ => .isFalse (fun h => Json.noConfusion h)
  | .str _, .null => .isFalse (fun h => Json.noConfusion h)
  | .str _, .bool _ => .isFalse (fun h => Json.noConfusion h)
  | .str _, .num _ => .isFalse (fun h => Json.noConfusion h)
  | .str _, .arr _ => .isFalse (fun h => Json.noConfusion h)
  | .str _, .obj _ => .isFalse (fun h => Json.noConfusion h)
  | .arr _, .null => .isFalse (fun h => Json.noConfusion h)
  | .arr _, .bool _ => .isFalse (fun h => Json.noConfusion h)
  | .arr _, .num _ => .isFalse (fun h => Json.noConfusion h)
  | .arr _, .str _ => .isFalse (fun h => Json.noConfusion h)
  | .arr _, .obj _ => .isFalse (fun h => Json.noConfusion h)
  | .obj _, .null => .isFalse (fun h => Json.noConfusion h)
  | .obj _, .bool _ => .isFalse (fun h => Json.noConfusion h)
  | .obj _, .num _ => .isFalse (fun h => Json.noConfusion h)
  | .obj _, .str _ => .isFalse (fun h => Json.noConfusion h)
  | .obj _, .arr _ => .isFalse (fun h => Json.noConfusion h)

/-- Decidable equality on lists of JSON values. -/
def Json.decEqList : (a b : List Json) → Decidable (a = b)
  | [], [] => .isTrue rfl
  | [], _ :: _ => .isFalse (fun h => List.noConfusion h)
  | _ :: _, [] => .isFalse (fun h => List.noConfusion h)
  | x :: xs, y :: ys =>
    match Json.decEq x y, Json.decEqList xs ys with
    | .isTrue h1, .isTrue h2 => .isTrue (by rw [h1, h2])
    | .isFalse h1, _ => .isFalse (fun e => h1 (by cases e; rfl))
    | _, .isFalse h2 => .isFalse (fun e => h2 (by cases e; rfl))

/-- Decidable equality on object entry lists. -/
def Json.decEqEntries : (a b : List (String × Json)) → Decidable (a = b)
  | [], [] => .isTrue rfl
  | [], _ :: _ => .isFalse (fun h => List.noConfusion h)
  | _ :: _, [] => .isFalse (fun h => List.noConfusion h)
  | (k1, v1) :: xs, (k2, v2) :: ys =>
    if hk : k1 = k2 then
      match Json.decEq v1 v2, Json.decEqEntries xs ys with
      | .isTrue h1, .isTrue h2 => .isTrue (by rw [hk, h1, h2])
      | .isFalse h1, _ => .isFalse (fun e => h1 (by cases e; rfl))
      | _, .isFalse h2 => .isFalse (fun e => h2 (by cases e; rfl))
    else .isFalse (fun e => hk (by cases e; rfl))

end

instance : DecidableEq Json := Json.decEq

instance {ε α : Type} [DecidableEq ε] [DecidableEq α] : DecidableEq (Except ε α)
  | .ok x, .ok y =>
    if h : x = y then .isTrue (by rw [h]) else .isFalse (fun e => h (by cases e; rfl))
  | .error x, .error y =>
    if h : x = y then .isTrue (by rw [h]) else .isFalse (fun e => h (by cases e; rfl))
  | .ok _, .error _ => .isFalse (fun h => Except.noConfusion h)
  | .error _, .ok _ => .isFalse (fun h => Except.noConfusion h)

namespace Json

/-- Lookup of a key in an entry list, first occurrence wins (Python dict
semantics). -/
def lookupKey : List (String × Json) → String → Option Json
  | [], _ => none
  | (k', v) :: rest, k => if k' = k then some v else lookupKey rest k

/-- Lookup of a key in an object (for non-objects the Python code would
raise; the claims below guard the shapes they need). -/
def get (j : Json) (k : String) : Option Json :=
  match j with
  | .obj es => lookupKey es k
  | _ => none

/-- Update the first entry holding key `k`, or append a new entry,
mirroring Python dict item assignment. -/
def setEntries (es : List (String × Json)) (k : String) (v : Json) :
    List (String × Json) :=
  match es with
  | [] => [(k, v)]
  | (k', v') :: rest => if k' = k then (k, v) :: rest else (k', v') :: setEntries rest k v

/-- Item assignment on an object (no-op on non-objects; the call sites in
the embedding only reach this on objects). -/
def setKey (j : Json) (k : String) (v : Json) : Json :=
  match j with
  | .obj es => .obj (setEntries es k v)
  | _ => j

/-- Python truthiness of a decoded JSON value, as used by the walrus
if-tests in the source. -/
def truthy : Json → Bool
  | .null => false
  | .bool b => b
  | .num n => n != 0
  | .str s => s != ""
  | .arr l => !l.isEmpty
  | .obj es => !es.isEmpty

end Json

/-- Failure modes of the module.  The error taxonomy of the design
document names the distinct raise sites of the source:
`submissionError` is the status-code assertion on job submission (which
in the source is a bare assert, carrying no message), `sqlRewriteError`
is the assertion guarding the identifier-quoting step (its message names
the offending SQL), `queryExecutionError` is the status-code assertion on
the query backends (its message is the response text), `keyError` is the
column-lookup failure the pandas frame raises when selected fields are
absent (its payload lists the missing column names), and `shapeError`
stands for the key/attribute/type errors Python raises on payloads of an
unexpected shape.  `missingFieldError` is modelled from the spec: the
design document prescribes a typed error naming the missing chart field,
but no code path in the source constructs such an error. -/
inductive DemoError where
  | submissionError (msg : Option String)
  | sqlRewriteError (msg : Option String)
  | queryExecutionError (msg : Option String)
  | keyError (missing : List String)
  | missingFieldError (field : String)
  | shapeError
deriving DecidableEq

/-- Tabular query result: ordered column names plus rows aligned to the
column order (the shape of the pandas DataFrame the source builds). -/
structure Table where
  columns : List String
  rows : List (List Json)
deriving DecidableEq

/-- Collect the field names referenced by the encoding entries, in
iteration order: for key in schema encoding, append encoding entry
"field" (utils.py lines 730-732).  Entries of an unexpected shape are a
shape error. -/
def collectFields : List (String × Json) → Except DemoError (List String)
  | [] => .ok []
  | (_, v) :: rest =>
    match v.get "field" with
    | some (.str f) =>
      match collectFields rest with
      | .ok fs => .ok (f :: fs)
      | .error e => .error e
    | _ => .error .shapeError

/-- Read an optional list-of-strings entry of a transform, defaulting to
the empty list when the key is absent (transform.get with default [],
utils.py line 737). -/
def getStrListD (j : Json) (k : String) : Option (List String) :=
  match j.get k with
  | none => some []
  | some (.arr l) => strList l
  | some _ => none
where
  strList : List Json → Option (List String)
  | [] => some []
  | .str s :: rest => (strList rest).map (s :: ·)
  | _ => none

/-- Apply the fold/as pairs of the transforms to the collected field
list: for each (fold, as) pair, replace the first occurrence of the as
name by the fold name, silently skipping pairs whose as name is absent
(the try/except ValueError around fields.index, utils.py lines 738-741). -/
def applyFoldPairs (fields : List String) : List (String × String) → List String
  | [] => fields
  | (f, a) :: rest =>
    let fields' :=
      match fields.findIdx? (fun x => x = a) with
      | some i => fields.set i f
      | none => fields
    applyFoldPairs fields' rest

/-- Process the whole transform list in order (utils.py lines 735-741). -/
def applyTransforms (fields : List String) : List Json → Except DemoError (List String)
  | [] => .ok fields
  | t :: rest =>
    match getStrListD t "fold", getStrListD t "as" with
    | some fs, some as_ => applyTransforms (applyFoldPairs fields (fs.zip as_)) rest
    | _, _ => .error .shapeError

/-- Resolve the set of table columns a chart schema references: collect
the encoding fields, deduplicate them (the source passes them through a
set; here first-occurrence order is kept), then apply the transforms when
the transform entry is present and truthy (utils.py lines 729-741). -/
def resolveFields (schema : Json) : Except DemoError (List String) :=
  match schema.get "encoding" with
  | some (.obj enc) =>
    match collectFields enc with
    | .ok fs =>
      let fields := fs.eraseDups
      (match schema.get "transform" with
       | some t =>
         if t.truthy then
           match t with
           | .arr ts => applyTransforms fields ts
           | _ => .error .shapeError
         else .ok fields
       | none => .ok fields)
    | .error e => .error e
  | _ => .error .shapeError

/-- Select the given fields from the table and materialize each row as a
field-name-to-value record, preserving row order — the embedding of
df[fields].to_dict(orient="records") (utils.py line 744).  When any field
is missing from the columns, pandas raises a KeyError listing the missing
labels; record keys are unique, so duplicated field labels collapse. -/
def Table.select (df : Table) (fields : List String) :
    Except DemoError (List (List (String × Json))) :=
  let missing := fields.filter (fun f => decide (f ∉ df.columns))
  if missing.isEmpty then
    .ok (df.rows.map (fun row =>
      fields.eraseDups.map (fun f =>
        (f, match df.columns.findIdx? (fun c => c = f) with
            | some i => row.getD i Json.null
            | none => Json.null))))
  else .error (.keyError missing)

/-- Embed a list of records as the JSON array stored under data.values. -/
def valuesJson (values : List (List (String × Json))) : Json :=
  .arr (values.map .obj)

/-- The chart value filler fill_vega_lite_values (utils.py lines
716-749): deep-copy the schema, resolve the referenced fields, narrow the
frame to them, and store the records under data values of the copy.  The
deep copy means the caller object is untouched; purity is stated through
fill_vega_lite_values_call below. -/
def fill_vega_lite_values (schema : Json) (df : Table) : Except DemoError Json :=
  match resolveFields schema with
  | .error e => .error e
  | .ok fields =>
    match df.select fields with
    | .error e => .error e
    | .ok values =>
      match schema.get "data" with
      | some (.obj des) =>
        .ok (schema.setKey "data" (.obj (Json.setEntries des "values" (valuesJson values))))
      | _ => .error .shapeError

/-- Call-level view of the filler: the first component is its return
value, the second is the state of the caller-supplied schema object after
the call.  The source copies the input (copy.deepcopy, utils.py line 727)
and mutates only the copy, so the caller object comes back unchanged. -/
def fill_vega_lite_values_call (schema : Json) (df : Table) :
    Except DemoError Json × Json :=
  (fill_vega_lite_values schema df, schema)

/-- Escape a character for inclusion in a JSON string literal (compact
orjson output; the double quote and the backslash are the cases the
payloads here exercise). -/
def escapeJsonChar (c : Char) : String :=
  if c = '"' then "\\\""
  else if c = '\\' then "\\\\"
  else String.singleton c

mutual

/-- Compact JSON serialization, as orjson.dumps produces it: no spaces,
object entries in insertion order. -/
def Json.dumps : Json → String
  | .null => "null"
  | .bool true => "true"
  | .bool false => "false"
  | .num n => toString n
  | .str s => "\"" ++ String.join (s.data.map escapeJsonChar) ++ "\""
  | .arr l => "[" ++ Json.dumpsList l ++ "]"
  | .obj es => "\x7b" ++ Json.dumpsEntries es ++ "\x7d"

/-- Comma-separated serialization of array elements. -/
def Json.dumpsList : List Json → String
  | [] => ""
  | [j] => Json.dumps j
  | j :: rest => Json.dumps j ++ "," ++ Json.dumpsList rest

/-- Comma-separated serialization of object entries. -/
def Json.dumpsEntries : List (String × Json) → String
  | [] => ""
  | [(k, v)] => Json.dumps (.str k) ++ ":" ++ Json.dumps v
  | (k, v) :: rest => Json.dumps (.str k) ++ ":" ++ Json.dumps v ++ "," ++ Json.dumpsEntries rest

end

/-- UTF-8 encoding of a code point as byte values. -/
def utf8Bytes (n : Nat) : List Nat :=
  if n < 0x80 then [n]
  else if n < 0x800 then [0xC0 + n / 64, 0x80 + n % 64]
  else if n < 0x10000 then [0xE0 + n / 4096, 0x80 + n / 64 % 64, 0x80 + n % 64]
  else [0xF0 + n / 262144, 0x80 + n / 4096 % 64, 0x80 + n / 64 % 64, 0x80 + n % 64]

/-- UTF-8 bytes of a string. -/
def strBytes (s : String) : List Nat :=
  (s.data.map (fun c => utf8Bytes c.toNat)).flatten

/-- Character of the standard base64 alphabet at the given index. -/
def b64Char (n : Nat) : Char :=
  "ABCDEFGHIJKLMNOPQRSTUVWXYZabcdefghijklmnopqrstuvwxyz0123456789+/".data.getD n '='

/-- Standard base64 encoding of a byte list, with padding, as
base64.b64encode produces (utils.py line 161). -/
def b64encode : List Nat → String
  | [] => ""
  | [a] =>
    String.mk [b64Char (a / 4), b64Char (a % 4 * 16)] ++ "=="
  | [a, b] =>
    String.mk [b64Char (a / 4), b64Char (a % 4 * 16 + b / 16), b64Char (b % 16 * 4)] ++ "="
  | a :: b :: c :: rest =>
    String.mk [b64Char (a / 4), b64Char (a % 4 * 16 + b / 16),
               b64Char (b % 16 * 4 + c / 64), b64Char (c % 64)] ++ b64encode rest

/-- Base URLs of the two query backends (utils.py lines 21-22). -/
def WREN_ENGINE_API_URL : String := "http://localhost:8080"

/-- Base URL of the generic connector backend. -/
def WREN_IBIS_API_URL : String := "http://localhost:8000"

/-- An HTTP request as the module issues it: method, URL, JSON body. -/
structure HttpRequest where
  method : String
  url : String
  body : Json
deriving DecidableEq

/-- An HTTP response as the module consumes it: status code, decoded JSON
body, raw text. -/
structure HttpResponse where
  status : Nat
  body : Json
  text : String
deriving DecidableEq

/-- add_quotes (utils.py lines 34-41): run the sqlglot transpile pass —
modelled as the oracle parameter quoter, since the library is external —
and fall back to the original SQL with a false flag when it raises. -/
def add_quotes (quoter : String → Option String) (sql : String) : String × Bool :=
  match quoter sql with
  | some quoted => (quoted, true)
  | none => (sql, false)

/-- Optional environment value as the JSON the connection-info dict
carries (os.getenv returns None when unset). -/
def envJson (env : String → Option String) (k : String) : Json :=
  match env k with
  | some v => .str v
  | none => .null

/-- The internal connection-info helper (utils.py lines 44-58): bigquery
and postgres get their kind-specific credential mapping from the
environment; any other kind falls through and Python returns None.  The
postgres port goes through int(), which raises on a missing or non-numeric
value. -/
def get_connection_info (env : String → Option String) (data_source : String) :
    Except DemoError Json :=
  if data_source = "bigquery" then
    .ok (.obj [("project_id", envJson env "bigquery.project-id"),
               ("dataset_id", envJson env "bigquery.dataset-id"),
               ("credentials", envJson env "bigquery.credentials-key")])
  else if data_source = "postgres" then
    match (env "postgres.port").bind (fun s => s.toInt?) with
    | some port =>
      .ok (.obj [("host", envJson env "postgres.host"),
                 ("port", .num port),
                 ("database", envJson env "postgres.database"),
                 ("user", envJson env "postgres.user"),
                 ("password", envJson env "postgres.password")])
    | none => .error .shapeError
  else .ok .null

/-- Request construction of get_data_from_wren_engine (utils.py lines
131-165): quote the SQL (asserting success — the assertion message names
the SQL), then build either the local-engine preview request (a GET, with
sql, manifest and limit in the JSON body) or the generic connector POST
(quoted sql, base64 of the serialized manifest, kind-specific connection
info, limit). -/
def get_data_request (quoter : String → Option String) (env : String → Option String)
    (sql dataset_type : String) (manifest : Json) (limit : Nat) :
    Except DemoError HttpRequest :=
  match add_quotes quoter sql with
  | (_, false) => .error (.sqlRewriteError (some ("Error in adding quotes to SQL: " ++ sql)))
  | (quoted_sql, true) =>
    if dataset_type = "duckdb" then
      .ok { method := "GET"
            url := WREN_ENGINE_API_URL ++ "/v1/mdl/preview"
            body := .obj [("sql", .str quoted_sql),
                          ("manifest", manifest),
                          ("limit", .num limit)] }
    else
      match get_connection_info env dataset_type with
      | .error e => .error e
      | .ok conn =>
        .ok { method := "POST"
              url := WREN_IBIS_API_URL ++ "/v2/connector/" ++ dataset_type
                       ++ "/query?limit=" ++ toString limit
              body := .obj [("sql", .str quoted_sql),
                            ("manifestStr", .str (b64encode (strBytes manifest.dumps))),
                            ("connectionInfo", conn),
                            ("limit", .num limit)] }

/-- Result of a query execution: either a DataFrame-shaped table (when
return_df is set) or the raw decoded response body. -/
inductive EngineData where
  | table (t : Table)
  | raw (j : Json)
deriving DecidableEq

/-- Column names of the local-engine response: name entry of each column
descriptor (utils.py line 149). -/
def parse_columns_duckdb : List Json → Except DemoError (List String)
  | [] => .ok []
  | j :: rest =>
    match j.get "name" with
    | some (.str s) =>
      match parse_columns_duckdb rest with
      | .ok cs => .ok (s :: cs)
      | .error e => .error e
    | _ => .error .shapeError

/-- Column names of the connector response: the entries themselves
(utils.py line 172). -/
def parse_columns_connector : List Json → Except DemoError (List String)
  | [] => .ok []
  | .str s :: rest =>
    match parse_columns_connector rest with
    | .ok cs => .ok (s :: cs)
    | .error e => .error e
  | _ => .error .shapeError

/-- Row lists of either response body. -/
def parse_rows : List Json → Except DemoError (List (List Json))
  | [] => .ok []
  | .arr r :: rest =>
    match parse_rows rest with
    | .ok rs => .ok (r :: rs)
    | .error e => .error e
  | _ => .error .shapeError

/-- Response shaping of get_data_from_wren_engine (utils.py lines
146-153 and 169-176): build the DataFrame from the columns and data
entries when return_df is set, otherwise hand back the decoded body. -/
def process_engine_response (dataset_type : String) (return_df : Bool) (data : Json) :
    Except DemoError EngineData :=
  if return_df then
    match data.get "columns", data.get "data" with
    | some (.arr cols), some (.arr rows) =>
      match (if dataset_type = "duckdb" then parse_columns_duckdb cols
             else parse_columns_connector cols), parse_rows rows with
      | .ok column_names, .ok rs => .ok (.table ⟨column_names, rs⟩)
      | .error e, _ => .error e
      | _, .error e => .error e
    | _, _ => .error .shapeError
  else .ok (.raw data)

/-- get_data_from_wren_engine (utils.py lines 124-176), with the network
made explicit: the first component of the result is the trace of HTTP
requests issued, the second the returned data or the raised error.  The
backend parameter maps a request to the response the server would give;
a non-200 status is the asserted query-execution failure carrying the
response text. -/
def get_data_from_wren_engine (quoter : String → Option String)
    (env : String → Option String) (sql dataset_type : String) (manifest : Json)
    (limit : Nat) (return_df : Bool) (backend : HttpRequest → HttpResponse) :
    List HttpRequest × Except DemoError EngineData :=
  match get_data_request quoter env sql dataset_type manifest limit with
  | .error e => ([], .error e)
  | .ok req =>
    let resp := backend req
    if resp.status = 200 then
      ([req], process_engine_response dataset_type return_df resp.body)
    else
      ([req], .error (.queryExecutionError (some resp.text)))

/-- Base URL of the AI service (utils.py line 20). -/
def WREN_AI_SERVICE_BASE_URL : String := "http://localhost:5556"

/-- Submission phase of ask (utils.py lines 478-495): the status-code
assertion is bare — it carries no message — and only a 200 response
reaches the query_id extraction that starts polling. -/
def ask_submit (resp : HttpResponse) : Except DemoError String :=
  if resp.status = 200 then
    match resp.body.get "query_id" with
    | some (.str query_id) => .ok query_id
    | _ => .error .shapeError
  else .error (.submissionError none)

/-- Submission phase of ask_feedback (utils.py lines 534-547): the same
bare status-code assertion followed by the query_id extraction. -/
def ask_feedback_submit (resp : HttpResponse) : Except DemoError String :=
  if resp.status = 200 then
    match resp.body.get "query_id" with
    | some (.str query_id) => .ok query_id
    | _ => .error .shapeError
  else .error (.submissionError none)

/-- The polling loop of ask (utils.py lines 496-510), run against a queue
of simulated poll responses and parameterized by the terminal-status
vocabulary (ask instantiates it with finished, failed and stopped; the
design document generalizes the vocabulary to a parameter).  Each
iteration issues one status request, reads the status and type entries of
the decoded body (both reads raise on absence in the source), and exits
as soon as the status is terminal.  The result is the number of status
requests issued together with the final payload; an exhausted queue means
the real loop would still be polling, and a payload without a string
status or without a type entry means the iteration would raise — both are
none here. -/
def ask_poll_loop (terminal_statuses : List String) : List Json → Option (Nat × Json)
  | [] => none
  | p :: rest =>
    match p.get "status", p.get "type" with
    | some (.str s), some _ =>
      if s ∈ terminal_statuses then some (1, p)
      else
        match ask_poll_loop terminal_statuses rest with
        | some (n, final) => some (n + 1, final)
        | none => none
    | _, _ => none

/-- Outcome classification of a terminal ask payload.  Success keeps the
payload, failure carries the message read from the error entry of the
final payload, every other terminal status is the stopped no-op. -/
inductive JobOutcome where
  | success (payload : Json)
  | failure (errorMessage : Json)
  | stopped
deriving DecidableEq

/-- Resolution phase of ask (utils.py lines 512-530): the finished status
is the success case (the source then branches on the type entry purely
for rendering), the failed status reads the error entry of the final
payload (raising when it is absent), and any other terminal status falls
through with no payload. -/
def classify_ask (p : Json) : Except DemoError JobOutcome :=
  match p.get "status" with
  | some (.str s) =>
    if s = "finished" then .ok (.success p)
    else if s = "failed" then
      match p.get "error" with
      | some e => .ok (.failure e)
      | none => .error .shapeError
    else .ok .stopped
  | _ => .error .shapeError

/-- Post-poll section of generate_chart (utils.py lines 793-799), taking
the terminal payload and the fetched table: when the response entry is
present and truthy and holds a truthy chart_schema, run the filler over
it and store the filled schema back; otherwise hand the payload back
untouched.  The boolean records whether the filler was invoked. -/
def generate_chart_post (chart_response : Json) (df : Table) :
    Except DemoError Json × Bool :=
  match chart_response.get "response" with
  | some chart_result =>
    if chart_result.truthy then
      match chart_result with
      | .obj _ =>
        match chart_result.get "chart_schema" with
        | some schema =>
          if schema.truthy then
            match fill_vega_lite_values schema df with
            | .ok filled =>
              (.ok (chart_response.setKey "response"
                      (chart_result.setKey "chart_schema" filled)), true)
            | .error e => (.error e, true)
          else (.ok chart_response, false)
        | none => (.ok chart_response, false)
      | _ => (.error .shapeError, false)
    else (.ok chart_response, false)
  | none => (.ok chart_response, false)

/-- Nested data values of a chart schema. -/
def dataValues (j : Json) : Option Json :=
  (j.get "data").bind (fun d => d.get "values")

/-- Pre-submission section of adjust_chart (utils.py lines 802-824): the
function assigns the empty list into the data values entry of the
caller-supplied chart_schema — in place, with no copy — and then posts
the adjustment request whose body carries that same mutated schema.  The
result pairs the request with the post-call state of the caller object;
a schema without a data object would make the item assignment raise. -/
def adjust_chart_prepare (query sql : String) (chart_schema : Json)
    (adjustment_option : Json) (language : String) :
    Except DemoError (HttpRequest × Json) :=
  match chart_schema.get "data" with
  | some (.obj des) =>
    let mutated := chart_schema.setKey "data" (.obj (Json.setEntries des "values" (.arr [])))
    .ok ({ method := "POST"
           url := WREN_AI_SERVICE_BASE_URL ++ "/v1/chart-adjustments"
           body := .obj [("query", .str query),
                         ("sql", .str sql),
                         ("adjustment_option", adjustment_option),
                         ("chart_schema", mutated),
                         ("configurations", .obj [("language", .str language)])] },
         mutated)
  | _ => .error .shapeError

/-- Encoding block of the chart-spec test case of the design document:
x bound to category, y bound to sales_alias. -/
def encodingC2 : Json :=
  .obj [("x", .obj [("field", .str "category")]),
        ("y", .obj [("field", .str "sales_alias")])]

/-- The chart spec exactly as the claim words it: transform entry with
fold sales_alias and as sales. -/
def schemaClaimC2 : Json :=
  .obj [("encoding", encodingC2),
        ("transform", .arr [.obj [("fold", .arr [.str "sales_alias"]),
                                  ("as", .arr [.str "sales"])]]),
        ("data", .obj [("values", .arr [])])]

/-- The chart spec with the transform the code actually resolves: fold
names the table column, as names the alias the encoding references. -/
def schemaAmendedC2 : Json :=
  .obj [("encoding", encodingC2),
        ("transform", .arr [.obj [("fold", .arr [.str "sales"]),
                                  ("as", .arr [.str "sales_alias"])]]),
        ("data", .obj [("values", .arr [])])]

/-- The concrete table of the claim: columns category and sales, rows
(A, 10) and (B, 20). -/
def tableC2 : Table :=
  ⟨["category", "sales"], [[.str "A", .num 10], [.str "B", .num 20]]⟩

/-- The data values the claim expects in the filled spec. -/
def expectedValuesC2 : Json :=
  .arr [.obj [("category", .str "A"), ("sales", .num 10)],
        .obj [("category", .str "B"), ("sales", .num 20)]]

/-- The filled spec the code produces on the amended transform. -/
def filledC2 : Json :=
  .obj [("encoding", encodingC2),
        ("transform", .arr [.obj [("fold", .arr [.str "sales"]),
                                  ("as", .arr [.str "sales_alias"])]]),
        ("data", .obj [("values", expectedValuesC2)])]

/-- A chart spec referencing a field (region) absent from tableC2. -/
def schemaC4 : Json :=
  .obj [("encoding", .obj [("x", .obj [("field", .str "region")])]),
        ("data", .obj [("values", .arr [])])]

/-- A non-terminal simulated ask poll response. -/
def pollRunningC1 : Json :=
  .obj [("status", .str "understanding"), ("type", .str "TEXT_TO_SQL")]

/-- A terminal (finished) simulated ask poll response. -/
def pollFinishedC1 : Json :=
  .obj [("status", .str "finished"), ("type", .str "TEXT_TO_SQL")]

/-- A terminal (stopped) simulated ask poll response. -/
def pollStoppedC1 : Json :=
  .obj [("status", .str "stopped"), ("type", .str "TEXT_TO_SQL")]

/-- The local-engine request built for SELECT 1 with an identity quoting
oracle, a simple manifest and limit 100. -/
def duckdbRequestC5 : HttpRequest :=
  { method := "GET"
    url := "http://localhost:8080/v1/mdl/preview"
    body := .obj [("sql", .str "SELECT 1"),
                  ("manifest", .obj [("catalog", .str "test")]),
                  ("limit", .num 100)] }

/-- The local-engine request built for SELECT 1 with a null manifest. -/
def duckdbRequestC8 : HttpRequest :=
  { method := "GET"
    url := "http://localhost:8080/v1/mdl/preview"
    body := .obj [("sql", .str "SELECT 1"),
                  ("manifest", .null),
                  ("limit", .num 100)] }

/-- A chart schema whose data values hold one record. -/
def schemaC10 : Json :=
  .obj [("data", .obj [("values", .arr [.obj [("a", .num 1)]])])]

/-- The post-call state of schemaC10: its data values emptied. -/
def afterC10 : Json :=
  .obj [("data", .obj [("values", .arr [])])]

/-- The chart-adjustment request the mutated schemaC10 is posted in. -/
def reqC10 : HttpRequest :=
  { method := "POST"
    url := "http://localhost:5556/v1/chart-adjustments"
    body := .obj [("query", .str "q"),
                  ("sql", .str "SELECT 1"),
                  ("adjustment_option", .obj []),
                  ("chart_schema", afterC10),
                  ("configurations", .obj [("language", .str "en")])] }

/-- A chart-generation terminal payload whose response entry is the
falsy null: the empty-response success case. -/
def emptyChartPayloadC9 : Json :=
  .obj [("status", .str "finished"), ("response", .null)]

namespace Json

/-- Updating a key and looking it up gives the new value. -/
theorem lookupKey_setEntries_self (es : List (String × Json)) (k : String) (v : Json) :
    lookupKey (setEntries es k v) k = some v := by
  induction es with
  | nil => simp [setEntries, lookupKey]
  | cons e rest ih =>
    obtain ⟨k1, v1⟩ := e
    by_cases h1 : k1 = k
    · simp [setEntries, h1, lookupKey]
    · simp [setEntries, h1, lookupKey, ih]

/-- Updating one key leaves lookups of other keys unchanged. -/
theorem lookupKey_setEntries_ne (es : List (String × Json)) (k k' : String) (v : Json)
    (h : k ≠ k') : lookupKey (setEntries es k v) k' = lookupKey es k' := by
  induction es with
  | nil => simp [setEntries, lookupKey, h]
  | cons e rest ih =>
    obtain ⟨k1, v1⟩ := e
    by_cases h1 : k1 = k
    · subst h1
      simp [setEntries, lookupKey, h]
    · simp only [setEntries, h1, if_false, lookupKey]
      by_cases h2 : k1 = k'
      · simp [h2]
      · simp [h2, ih]

/-- Updating the same key twice keeps only the second value. -/
theorem setEntries_setEntries (es : List (String × Json)) (k : String) (v v' : Json) :
    setEntries (setEntries es k v) k v' = setEntries es k v' := by
  induction es with
  | nil => simp [setEntries]
  | cons e rest ih =>
    obtain ⟨k1, v1⟩ := e
    by_cases h1 : k1 = k
    · simp [setEntries, h1]
    · simp [setEntries, h1, ih]

/-- Reading back the key just assigned on an object. -/
theorem get_setKey_self (es : List (String × Json)) (k : String) (v : Json) :
    ((Json.obj es).setKey k v).get k = some v := by
  simp [setKey, get, lookupKey_setEntries_self]

/-- Assignment to one key of an object leaves the other keys readable
unchanged. -/
theorem get_setKey_ne (es : List (String × Json)) (k k' : String) (v : Json)
    (h : k ≠ k') : ((Json.obj es).setKey k v).get k' = (Json.obj es).get k' := by
  simp [setKey, get, lookupKey_setEntries_ne _ _ _ _ h]

end Json

/-- The resolved field set of a schema depends only on its encoding and
transform entries. -/
theorem resolveFields_congr (j j' : Json)
    (he : j.get "encoding" = j'.get "encoding")
    (ht : j.get "transform" = j'.get "transform") :
    resolveFields j = resolveFields j' := by
  unfold resolveFields
  rw [he, ht]

/-- A successful fill is a fixed point of the filler: running it again
over its own output with the same table returns that output. -/
theorem fill_vega_lite_values_fixpoint (schema s2 : Json) (df : Table)
    (h : fill_vega_lite_values schema df = .ok s2) :
    fill_vega_lite_values s2 df = .ok s2 := by
  unfold fill_vega_lite_values at h
  cases hrf : resolveFields schema with
  | error e => rw [hrf] at h; simp at h
  | ok fields =>
    rw [hrf] at h
    dsimp only at h
    cases hsel : df.select fields with
    | error e => rw [hsel] at h; simp at h
    | ok values =>
      rw [hsel] at h
      dsimp only at h
      cases hd : schema.get "data" with
      | none => rw [hd] at h; simp at h
      | some d =>
        rw [hd] at h
        cases d with
        | obj des =>
          simp only [Except.ok.injEq] at h
          cases schema with
          | obj es =>
            have hne : ("data" : String) ≠ "encoding" := by decide
            have hnt : ("data" : String) ≠ "transform" := by decide
            have h2 : resolveFields s2 = .ok fields := by
              rw [resolveFields_congr s2 (.obj es)
                    (by rw [← h]; exact Json.get_setKey_ne es "data" "encoding" _ hne)
                    (by rw [← h]; exact Json.get_setKey_ne es "data" "transform" _ hnt),
                  hrf]
            have hd2 : s2.get "data" =
                some (.obj (Json.setEntries des "values" (valuesJson values))) := by
              rw [← h]; exact Json.get_setKey_self es "data" _
            unfold fill_vega_lite_values
            rw [h2]
            dsimp only
            rw [hsel]
            dsimp only
            rw [hd2, ← h]
            simp only [Json.setKey, Json.setEntries_setEntries]
          | null => simp [Json.get] at hd
          | bool b => simp [Json.get] at hd
          | num n => simp [Json.get] at hd
          | str s => simp [Json.get] at hd
          | arr l => simp [Json.get] at hd
        | null => simp at h
        | bool b => simp at h
        | num n => simp at h
        | str s => simp at h
        | arr l => simp at h

/-- Claim C2, counterexample: on the chart spec written exactly as the
claim states it — encoding x category / y sales_alias with transform fold
[sales_alias] / as [sales] — and the table with columns category and
sales, the filler does NOT resolve the alias: the code replaces the as
name by the fold name, so the claimed transform leaves sales_alias in the
field list, the frame lookup raises the key error naming sales_alias, and
the claimed filled spec is not returned. -/
theorem fill_vega_lite_values_claimed_transform_counterexample :
    fill_vega_lite_values schemaClaimC2 tableC2 = .error (.keyError ["sales_alias"]) ∧
    fill_vega_lite_values schemaClaimC2 tableC2 ≠
      .ok (schemaClaimC2.setKey "data" (.obj [("values", expectedValuesC2)])) := by
  decide

/-- Claim C2 (amended): with the transform direction the code implements
— fold [sales] / as [sales_alias], so the as name is the post-fold alias
the encoding references and the fold name is the table column — alias
resolution maps sales_alias to the column sales, and the returned spec
carries data values [(category A, sales 10), (category B, sales 20)]. -/
theorem fill_vega_lite_values_reverse_alias :
    fill_vega_lite_values schemaAmendedC2 tableC2 = .ok filledC2 ∧
    dataValues filledC2 = some expectedValuesC2 := by
  decide

/-- Claim C3: the chart value filler is pure — the caller-supplied spec
object compares equal to itself after the call, the source deep-copying
the input before mutating anything — and idempotent: running the filler
over its own successful output with the same table returns that output
unchanged (stated as a bind equation, which also covers the error case
trivially). -/
theorem fill_vega_lite_values_pure_and_idempotent (schema : Json) (df : Table) :
    (fill_vega_lite_values_call schema df).2 = schema ∧
    Except.bind (fill_vega_lite_values schema df)
        (fun s2 => fill_vega_lite_values s2 df) =
      fill_vega_lite_values schema df := by
  refine ⟨rfl, ?_⟩
  cases hf : fill_vega_lite_values schema df with
  | error e => rfl
  | ok s2 => exact fill_vega_lite_values_fixpoint schema s2 df hf

/-- Claim C4, counterexample: a spec referencing the field region, which
tableC2 lacks, makes the filler fail with the generic pandas column
key error — not with the typed missing-field error the claim states,
which no code path constructs. -/
theorem fill_missing_field_counterexample :
    fill_vega_lite_values schemaC4 tableC2 = .error (.keyError ["region"]) ∧
    DemoError.keyError ["region"] ≠ DemoError.missingFieldError "region" := by
  decide

/-- Claim C4 (amended): whenever the resolved field set of the spec has a
member absent from the table columns, the filler propagates the uncaught
generic key-lookup error of the frame selection, whose payload lists — so
names — every missing field; no tabular result is returned. -/
theorem fill_missing_field_raises_key_error (schema : Json) (df : Table)
    (fields : List String)
    (hrf : resolveFields schema = .ok fields)
    (hm : fields.filter (fun f => decide (f ∉ df.columns)) ≠ []) :
    fill_vega_lite_values schema df =
      .error (.keyError (fields.filter (fun f => decide (f ∉ df.columns)))) ∧
    ∀ f ∈ fields, f ∉ df.columns →
      f ∈ fields.filter (fun f => decide (f ∉ df.columns)) := by
  constructor
  · have hne : (fields.filter (fun f => decide (f ∉ df.columns))).isEmpty = false := by
      cases hc : fields.filter (fun f => decide (f ∉ df.columns)) with
      | nil => exact absurd hc hm
      | cons a l => rfl
    unfold fill_vega_lite_values
    rw [hrf]
    dsimp only
    unfold Table.select
    dsimp only
    rw [hne]
    rfl
  · intro f hf hnc
    simp [List.mem_filter, hf, hnc]

/-- Claim C4 witness: the amended theorem applied to the concrete spec
referencing region over tableC2. -/
theorem fill_missing_field_raises_key_error_witness :
    fill_vega_lite_values schemaC4 tableC2 =
      .error (.keyError (["region"].filter (fun f => decide (f ∉ tableC2.columns)))) :=
  (fill_missing_field_raises_key_error schemaC4 tableC2 ["region"]
    (by decide) (by decide)).1

/-- Claim C1, counterexample: with the ask terminal vocabulary, a queue
of two simulated responses whose last status (stopped) is terminal — but
whose first (finished) is terminal too — makes the loop return after one
status request, not after the two the claim demands for every queue
ending in a terminal status. -/
theorem ask_poll_loop_early_terminal_counterexample :
    (ask_poll_loop ["finished", "failed", "stopped"]
        [pollFinishedC1, pollStoppedC1]).map Prod.fst = some 1 ∧
    [pollFinishedC1, pollStoppedC1].length = 2 ∧ (1 : Nat) ≠ 2 := by
  decide

/-- Claim C1 (amended): for every terminal-status vocabulary and every
queue of simulated poll responses carrying a status and a type entry,
whose last status is terminal and all of whose earlier statuses are
non-terminal, the ask polling loop returns exactly once, after issuing
exactly as many status requests as responses were queued, with the last
payload; and the resolution classifies that payload as success when its
status is finished, as failure carrying the error entry of the payload
when its status is failed, and as the stopped no-op for any other
terminal status. -/
theorem ask_poll_loop_polls_all_and_classifies
    (terminal_statuses : List String) (qs : List Json) (p : Json)
    (hqs : ∀ r ∈ qs, ∃ s ty, r.get "status" = some (.str s) ∧ r.get "type" = some ty ∧
        s ∉ terminal_statuses)
    (hp : ∃ s ty, p.get "status" = some (.str s) ∧ p.get "type" = some ty ∧
        s ∈ terminal_statuses) :
    ask_poll_loop terminal_statuses (qs ++ [p]) = some (qs.length + 1, p) ∧
    (p.get "status" = some (.str "finished") → classify_ask p = .ok (.success p)) ∧
    (∀ e, p.get "status" = some (.str "failed") → p.get "error" = some e →
        classify_ask p = .ok (.failure e)) ∧
    (∀ s, p.get "status" = some (.str s) → s ≠ "finished" → s ≠ "failed" →
        classify_ask p = .ok .stopped) := by
  refine ⟨?_, ?_, ?_, ?_⟩
  · induction qs with
    | nil =>
      obtain ⟨s, ty, hs, hty, hmem⟩ := hp
      simp [ask_poll_loop, hs, hty, hmem]
    | cons r rest ih =>
      obtain ⟨s, ty, hs, hty, hmem⟩ := hqs r (by simp)
      have ih2 := ih (fun x hx => hqs x (by simp [hx]))
      simp only [List.cons_append, ask_poll_loop, hs, hty, hmem, if_false,
        List.length_cons]
      rw [List.append_eq, ih2]
  · intro hst
    simp [classify_ask, hst]
  · intro e hst he
    simp [classify_ask, hst, he]
  · intro s hst hne1 hne2
    simp [classify_ask, hst, hne1, hne2]

/-- Claim C1 witness: the amended loop theorem applied to a two-element
queue — one running response, then a finished one — under the ask
vocabulary: both responses are polled and the final payload is the
finished one. -/
theorem ask_poll_loop_polls_all_and_classifies_witness :
    ask_poll_loop ["finished", "failed", "stopped"] [pollRunningC1, pollFinishedC1] =
      some (2, pollFinishedC1) :=
  (ask_poll_loop_polls_all_and_classifies ["finished", "failed", "stopped"]
    [pollRunningC1] pollFinishedC1
    (by
      intro r hr
      simp only [List.mem_singleton] at hr
      subst hr
      exact ⟨"understanding", .str "TEXT_TO_SQL", rfl, rfl, by decide⟩)
    ⟨"finished", .str "TEXT_TO_SQL", rfl, rfl, by decide⟩).1

/-- Claim C5, counterexample: the request the executor builds for the
local embedded engine kind is issued with the HTTP method GET — the
source calls requests.get on the preview endpoint — not with the POST the
claim states. -/
theorem get_data_request_duckdb_get_counterexample :
    get_data_request (fun s => some s) (fun _ => none) "SELECT 1" "duckdb"
        (.obj [("catalog", .str "test")]) 100 = .ok duckdbRequestC5 ∧
    duckdbRequestC5.method = "GET" ∧ "GET" ≠ "POST" := by
  decide

/-- Claim C5 (amended): whenever quoting succeeds, the duckdb kind sends
the quoted SQL, the manifest and the limit in a GET to the local preview
endpoint, and every other kind sends a POST to the connector endpoint
parameterized by the kind, carrying the quoted SQL, the base64-encoded
serialized manifest, the kind-specific connection info and the limit. -/
theorem get_data_request_dispatch
    (quoter : String → Option String) (env : String → Option String)
    (sql quoted_sql : String) (manifest : Json) (limit : Nat)
    (hq : quoter sql = some quoted_sql) :
    get_data_request quoter env sql "duckdb" manifest limit =
      .ok { method := "GET"
            url := WREN_ENGINE_API_URL ++ "/v1/mdl/preview"
            body := .obj [("sql", .str quoted_sql),
                          ("manifest", manifest),
                          ("limit", .num limit)] } ∧
    ∀ ds, ds ≠ "duckdb" → ∀ conn, get_connection_info env ds = .ok conn →
      get_data_request quoter env sql ds manifest limit =
        .ok { method := "POST"
              url := WREN_IBIS_API_URL ++ "/v2/connector/" ++ ds
                       ++ "/query?limit=" ++ toString limit
              body := .obj [("sql", .str quoted_sql),
                            ("manifestStr", .str (b64encode (strBytes manifest.dumps))),
                            ("connectionInfo", conn),
                            ("limit", .num limit)] } := by
  constructor
  · simp [get_data_request, add_quotes, hq]
  · intro ds hds conn hconn
    simp [get_data_request, add_quotes, hq, hds, hconn]

/-- Claim C5 witness: the dispatch theorem applied to a bigquery
execution with an identity quoting oracle and an empty environment. -/
theorem get_data_request_dispatch_witness :
    get_data_request (fun s => some s) (fun _ => none) "SELECT 1" "bigquery"
        (.obj [("catalog", .str "test")]) 100 =
      .ok { method := "POST"
            url := WREN_IBIS_API_URL ++ "/v2/connector/" ++ "bigquery"
                     ++ "/query?limit=" ++ toString 100
            body := .obj [("sql", .str "SELECT 1"),
                          ("manifestStr",
                           .str (b64encode (strBytes (Json.obj [("catalog", .str "test")]).dumps))),
                          ("connectionInfo", .obj [("project_id", Json.null),
                                                   ("dataset_id", Json.null),
                                                   ("credentials", Json.null)]),
                          ("limit", .num 100)] } :=
  (get_data_request_dispatch (fun s => some s) (fun _ => none) "SELECT 1" "SELECT 1"
    (.obj [("catalog", .str "test")]) 100 rfl).2 "bigquery" (by decide) _ rfl

/-- Claim C6: when identifier quoting fails, the query executor raises
the fatal SQL-rewrite failure — the assertion whose message names the
offending SQL — before issuing any network request: the request trace is
empty for every backend, so the un-quoted SQL is never sent. -/
theorem quoting_failure_no_network_request
    (quoter : String → Option String) (env : String → Option String)
    (sql dataset_type : String) (manifest : Json) (limit : Nat) (return_df : Bool)
    (backend : HttpRequest → HttpResponse)
    (h : quoter sql = none) :
    get_data_from_wren_engine quoter env sql dataset_type manifest limit return_df backend =
      ([], .error (.sqlRewriteError (some ("Error in adding quotes to SQL: " ++ sql)))) := by
  simp [get_data_from_wren_engine, get_data_request, add_quotes, h]

/-- Claim C6 witness: a quoting oracle that always fails, on a duckdb
execution with a backend that would answer 200. -/
theorem quoting_failure_no_network_request_witness :
    get_data_from_wren_engine (fun _ => none) (fun _ => none) "SELEC 1" "duckdb"
        Json.null 100 true (fun _ => ⟨200, Json.null, ""⟩) =
      ([], .error (.sqlRewriteError (some ("Error in adding quotes to SQL: " ++ "SELEC 1")))) :=
  quoting_failure_no_network_request (fun _ => none) (fun _ => none) "SELEC 1" "duckdb"
    Json.null 100 true (fun _ => ⟨200, Json.null, ""⟩) rfl

/-- Claim C8: whenever the executor has built a request (either path) and
the backend answers with a status other than 200, the execution fails
with the fatal query-execution error carrying the response text — the
asserted status check — and no tabular result, partial or otherwise, is
returned. -/
theorem non_200_raises_query_execution_error
    (quoter : String → Option String) (env : String → Option String)
    (sql dataset_type : String) (manifest : Json) (limit : Nat) (return_df : Bool)
    (backend : HttpRequest → HttpResponse) (req : HttpRequest)
    (hreq : get_data_request quoter env sql dataset_type manifest limit = .ok req)
    (hst : (backend req).status ≠ 200) :
    get_data_from_wren_engine quoter env sql dataset_type manifest limit return_df backend =
      ([req], .error (.queryExecutionError (some (backend req).text))) := by
  unfold get_data_from_wren_engine
  rw [hreq]
  simp [hst]

/-- Claim C8 witness: a duckdb execution whose backend answers 500 with
body text boom. -/
theorem non_200_raises_query_execution_error_witness :
    get_data_from_wren_engine (fun s => some s) (fun _ => none) "SELECT 1" "duckdb"
        Json.null 100 true (fun _ => ⟨500, Json.null, "boom"⟩) =
      ([duckdbRequestC8], .error (.queryExecutionError (some "boom"))) :=
  non_200_raises_query_execution_error (fun s => some s) (fun _ => none) "SELECT 1"
    "duckdb" Json.null 100 true (fun _ => ⟨500, Json.null, "boom"⟩) duckdbRequestC8
    (by decide) (by decide)

/-- Claim C7, counterexample: on a non-200 submission response carrying a
body, the ask submission fails with the bare assertion — the raised error
carries no message at all, not the response body the claim states. -/
theorem ask_submit_no_body_counterexample :
    ask_submit ⟨500, Json.null, "server error body"⟩ = .error (.submissionError none) ∧
    DemoError.submissionError none ≠ DemoError.submissionError (some "server error body") := by
  decide

/-- Claim C7 (amended): for both submission sites (ask and ask_feedback)
a non-200 response fails with the fatal submission error — which, the
assertion being bare, carries no response body — and a 200 response is
required for the job identifier to be extracted from the body so polling
can begin. -/
theorem submission_requires_200 (resp : HttpResponse) :
    (resp.status ≠ 200 →
      ask_submit resp = .error (.submissionError none) ∧
      ask_feedback_submit resp = .error (.submissionError none)) ∧
    (∀ query_id, resp.status = 200 → resp.body.get "query_id" = some (.str query_id) →
      ask_submit resp = .ok query_id ∧ ask_feedback_submit resp = .ok query_id) := by
  constructor
  · intro h
    exact ⟨by simp [ask_submit, h], by simp [ask_feedback_submit, h]⟩
  · intro query_id h hq
    exact ⟨by simp [ask_submit, h, hq], by simp [ask_feedback_submit, h, hq]⟩

/-- Claim C7 witness: the amended theorem applied to a 404 response and
to a 200 response carrying a query identifier. -/
theorem submission_requires_200_witness :
    (ask_submit ⟨404, Json.null, "nf"⟩ = .error (.submissionError none) ∧
      ask_feedback_submit ⟨404, Json.null, "nf"⟩ = .error (.submissionError none)) ∧
    (ask_submit ⟨200, .obj [("query_id", .str "j1")], ""⟩ = .ok "j1" ∧
      ask_feedback_submit ⟨200, .obj [("query_id", .str "j1")], ""⟩ = .ok "j1") :=
  ⟨(submission_requires_200 ⟨404, Json.null, "nf"⟩).1 (by decide),
   (submission_requires_200 ⟨200, .obj [("query_id", .str "j1")], ""⟩).2 "j1" rfl rfl⟩

/-- Claim C9: a chart job payload whose response entry is missing or
falsy (the empty-response success case) is a no-op for the post-poll
section of generate_chart: the terminal payload is returned unchanged,
the chart value filler is never invoked, and no error is raised. -/
theorem generate_chart_empty_response_noop (p : Json) (df : Table)
    (h : p.get "response" = none ∨ ∃ r, p.get "response" = some r ∧ r.truthy = false) :
    generate_chart_post p df = (.ok p, false) := by
  rcases h with h | ⟨r, hr, htr⟩
  · simp [generate_chart_post, h]
  · simp [generate_chart_post, hr, htr]

/-- Claim C9 witness: the no-op theorem applied to a finished payload
whose response entry is null, over the concrete tableC2. -/
theorem generate_chart_empty_response_noop_witness :
    generate_chart_post emptyChartPayloadC9 tableC2 = (.ok emptyChartPayloadC9, false) :=
  generate_chart_empty_response_noop emptyChartPayloadC9 tableC2
    (Or.inr ⟨Json.null, rfl, rfl⟩)

/-- Claim C10: adjust_chart empties the data values entry of the
caller-supplied chart schema in place before submitting: whenever the
preparation succeeds, the post-call state of the caller object has the
empty list as its data values, the submitted request body carries exactly
that mutated schema, and the caller object no longer holds any previous
non-empty data values. -/
theorem adjust_chart_mutates_schema (query sql : String) (chart_schema : Json)
    (adjustment_option : Json) (language : String) (req : HttpRequest) (after : Json)
    (h : adjust_chart_prepare query sql chart_schema adjustment_option language =
      .ok (req, after)) :
    dataValues after = some (.arr []) ∧
    req.body.get "chart_schema" = some after ∧
    ∀ v, dataValues chart_schema = some v → v ≠ .arr [] →
      dataValues after ≠ dataValues chart_schema := by
  unfold adjust_chart_prepare at h
  cases hd : chart_schema.get "data" with
  | none => rw [hd] at h; simp at h
  | some d =>
    rw [hd] at h
    cases d with
    | obj des =>
      simp only [Except.ok.injEq, Prod.mk.injEq] at h
      obtain ⟨hreq, hafter⟩ := h
      cases chart_schema with
      | obj es =>
        have hvals : dataValues after = some (.arr []) := by
          rw [← hafter]
          unfold dataValues
          rw [Json.get_setKey_self es "data" _]
          simp [Json.get, Json.lookupKey_setEntries_self]
        refine ⟨hvals, ?_, ?_⟩
        · rw [← hreq]
          simp [Json.get, Json.lookupKey, ← hafter]
        · intro v hv hvne
          rw [hvals, hv]
          intro e
          exact hvne (by injection e with e2; exact e2.symm)
      | null => simp [Json.get] at hd
      | bool b => simp [Json.get] at hd
      | num n => simp [Json.get] at hd
      | str s => simp [Json.get] at hd
      | arr l => simp [Json.get] at hd
    | null => simp at h
    | bool b => simp at h
    | num n => simp at h
    | str s => simp at h
    | arr l => simp at h

/-- Claim C10 witness: the mutation theorem applied to a schema holding
one data record — after the call its data values are the empty list and
the request body carries the emptied schema. -/
theorem adjust_chart_mutates_schema_witness :
    dataValues afterC10 = some (.arr []) ∧
    reqC10.body.get "chart_schema" = some afterC10 := by
  have h := adjust_chart_mutates_schema "q" "SELECT 1" schemaC10 (Json.obj []) "en"
    reqC10 afterC10 (by decide)
  exact ⟨h.1, h.2.1⟩
